import Mathlib

/-!
Shallow embedding of the Pantos validator node's transfer lifecycle code
(`pantos/validatornode`): the database access layer (`database/access.py`,
`database/models.py`), the transfer business logic
(`business/transfers.py`), and the Ethereum client helpers
(`blockchains/ethereum.py`, `entities.py`).

Stateful database code is embedded as explicit state passing over lists of
rows; fallible code returns `Except`/`Option`.  The `TransferStatus` enum
(module `database/enums.py`, whose member names appear throughout
`database/access.py` and `business/transfers.py`) is embedded as a Lean
inductive; only the identity of its members matters for the embedded code.
-/

namespace PantosValidatorNode

/-- The transfer status enum (`database/enums.py`), with exactly the member
names referenced by `database/access.py` and `business/transfers.py`. -/
inductive TransferStatus where
  | SOURCE_TRANSACTION_DETECTED
  | SOURCE_TRANSACTION_REVERTED
  | SOURCE_TRANSACTION_INVALID
  | SOURCE_REVERSAL_TRANSACTION_SUBMITTED
  | SOURCE_REVERSAL_TRANSACTION_CONFIRMED
  | SOURCE_REVERSAL_TRANSACTION_FAILED
  | DESTINATION_TRANSACTION_SUBMITTED
  | DESTINATION_TRANSACTION_CONFIRMED
  | DESTINATION_TRANSACTION_FAILED
  | SOURCE_TRANSACTION_DETECTED_NEW_NONCE_ASSIGNED
  | DESTINATION_TRANSACTION_FAILED_NEW_NONCE_ASSIGNED
  | SOURCE_REVERSAL_TRANSACTION_FAILED_NEW_NONCE_ASSIGNED
  deriving DecidableEq, Repr

/-- A row of the "transfers" table (`database/models.py`, class
`Transfer`).  `Numeric`/`BigInteger` columns are embedded as `Nat`/`Int`,
nullable columns as `Option`, timestamp columns as abstract `Nat` ticks. -/
structure Transfer where
  id : Nat
  source_blockchain_id : Nat
  destination_blockchain_id : Nat
  sender_address : String
  recipient_address : String
  source_token_contract_id : Nat
  destination_token_contract_id : Nat
  amount : Nat
  validator_nonce : Nat
  source_hub_contract_id : Nat
  destination_hub_contract_id : Option Nat := none
  destination_forwarder_contract_id : Option Nat := none
  task_id : Option String := none
  source_transfer_id : Nat
  destination_transfer_id : Option Nat := none
  source_transaction_id : String
  destination_transaction_id : Option String := none
  source_block_number : Int
  destination_block_number : Option Int := none
  nonce : Option Int := none
  status_id : TransferStatus
  created : Nat := 0
  updated : Option Nat := none
  deriving DecidableEq, Repr

/-- A cross-chain transfer entity (`entities.py`, class
`CrossChainTransfer`); blockchains are embedded by their enum value. -/
structure CrossChainTransfer where
  source_blockchain : Nat
  destination_blockchain : Nat
  source_hub_address : String
  source_transfer_id : Nat
  source_transaction_id : String
  source_block_number : Int
  source_block_hash : String
  sender_address : String
  recipient_address : String
  source_token_address : String
  destination_token_address : String
  amount : Nat
  fee : Nat
  service_node_address : String
  is_reversal_transfer : Bool := false
  deriving DecidableEq, Repr

/-- `CrossChainTransfer.eventual_destination_blockchain` (`entities.py`). -/
def CrossChainTransfer.eventual_destination_blockchain
    (t : CrossChainTransfer) : Nat :=
  if t.is_reversal_transfer then t.source_blockchain
  else t.destination_blockchain

/-- `CrossChainTransfer.eventual_recipient_address` (`entities.py`). -/
def CrossChainTransfer.eventual_recipient_address
    (t : CrossChainTransfer) : String :=
  if t.is_reversal_transfer then t.sender_address else t.recipient_address

/-- `CrossChainTransfer.eventual_destination_token_address`
(`entities.py`). -/
def CrossChainTransfer.eventual_destination_token_address
    (t : CrossChainTransfer) : String :=
  if t.is_reversal_transfer then t.source_token_address
  else t.destination_token_address

/-- `reset_transfer_nonce` (`database/access.py`): an UPDATE of the row
with the given ID setting only the `nonce` column to NULL. -/
def reset_transfer_nonce (internal_transfer_id : Nat)
    (transfers : List Transfer) : List Transfer :=
  transfers.map fun t =>
    if t.id = internal_transfer_id then { t with nonce := none } else t

/-- `update_blockchain_last_block_number` (`database/access.py`) for a
single blockchain row: given the stored `last_block_number` and the new
number, it raises a `DatabaseError` when the stored number is greater,
and otherwise stores the new number.  The result is the stored value
after the call. -/
def update_blockchain_last_block_number (stored last_block_number : Int) :
    Except String Int :=
  if stored > last_block_number then
    Except.error "stored last block number is greater than given block number"
  else if stored ≠ last_block_number then Except.ok last_block_number
  else Except.ok stored

/-- A sequence of `update_blockchain_last_block_number` calls applied to a
stored value; a call that raises leaves the stored value unchanged. -/
def apply_last_block_number_updates (stored : Int) (updates : List Int) :
    Int :=
  updates.foldl
    (fun s n =>
      match update_blockchain_last_block_number s n with
      | Except.ok v => v
      | Except.error _ => s)
    stored

/-- The `failed_transactions_expression` filter of `update_transfer_nonce`
(`database/access.py`): transfers on the destination blockchain whose
nonce is non-NULL and whose status is `DESTINATION_TRANSACTION_FAILED` or
`SOURCE_REVERSAL_TRANSACTION_FAILED`. -/
def failed_transactions_expression (destination_blockchain : Nat)
    (t : Transfer) : Bool :=
  t.destination_blockchain_id = destination_blockchain ∧
    t.nonce.isSome ∧
    (t.status_id = TransferStatus.DESTINATION_TRANSACTION_FAILED ∨
      t.status_id = TransferStatus.SOURCE_REVERSAL_TRANSACTION_FAILED)

/-- The `count_failed_nonces_subquery` of `update_transfer_nonce`:
`SELECT count(*)` over the failed-transactions filter. -/
def count_failed_nonces (destination_blockchain : Nat)
    (transfers : List Transfer) : Nat :=
  (transfers.filter (failed_transactions_expression destination_blockchain)).length

/-- The `minimum_failed_nonce_cte` of `update_transfer_nonce`:
`SELECT min(nonce)` over the failed-transactions filter (SQL `min`
ignores NULLs and is NULL on an empty set). -/
def minimum_failed_nonce (destination_blockchain : Nat)
    (transfers : List Transfer) : Option Int :=
  ((transfers.filter
      (failed_transactions_expression destination_blockchain)).filterMap
    Transfer.nonce).min?

/-- The `maximum_transfer_nonce_subquery` of `update_transfer_nonce`:
`SELECT max(nonce)` over the transfers on the destination blockchain. -/
def maximum_transfer_nonce (destination_blockchain : Nat)
    (transfers : List Transfer) : Option Int :=
  ((transfers.filter fun t =>
      t.destination_blockchain_id = destination_blockchain).filterMap
    Transfer.nonce).max?

/-- SQL equality of a nullable column with a nullable scalar subquery:
true only when both sides are non-NULL and equal. -/
def sqlEqOpt (a b : Option Int) : Bool :=
  match a, b with
  | some x, some y => x = y
  | _, _ => false

/-- SQL comparison `a >= b` of a nullable aggregate with a value: false
when the aggregate is NULL. -/
def sqlGeOpt (a : Option Int) (b : Int) : Bool :=
  match a with
  | some x => b ≤ x
  | none => false

/-- SQL NULLS-DISTINCT unique-constraint comparison of two nullable
columns: two rows collide on the column only when both values are
non-NULL and equal. -/
def sqlEqOptNat (a b : Option Nat) : Bool :=
  match a, b with
  | some x, some y => x = y
  | _, _ => false

/-- The row transformation of the single UPDATE statement in
`update_transfer_nonce` (`database/access.py`): `cnt`, `minF` and `maxN`
are the three aggregates evaluated on the pre-state.  A row is updated
when its ID is the given transfer ID or it is on the destination
blockchain and its nonce equals the minimum failed nonce; the new `nonce`
and `status_id` follow the two SQL CASE expressions. -/
def update_transfer_nonce_row (internal_transfer_id : Nat)
    (destination_blockchain : Nat) (latest_blockchain_nonce : Int)
    (cnt : Nat) (minF maxN : Option Int) (t : Transfer) : Transfer :=
  if t.id = internal_transfer_id ∨
      (t.destination_blockchain_id = destination_blockchain ∧
        sqlEqOpt t.nonce minF) then
    { t with
      nonce :=
        if cnt = 0 then
          some (if sqlGeOpt maxN latest_blockchain_nonce then
                  maxN.getD 0 + 1
                else latest_blockchain_nonce)
        else if t.id = internal_transfer_id then minF
        else none
      status_id :=
        if t.id = internal_transfer_id then
          if t.status_id = TransferStatus.SOURCE_TRANSACTION_DETECTED then
            TransferStatus.SOURCE_TRANSACTION_DETECTED_NEW_NONCE_ASSIGNED
          else if t.status_id = TransferStatus.DESTINATION_TRANSACTION_FAILED
              then
            TransferStatus.DESTINATION_TRANSACTION_FAILED_NEW_NONCE_ASSIGNED
          else
            TransferStatus.SOURCE_REVERSAL_TRANSACTION_FAILED_NEW_NONCE_ASSIGNED
        else
          if t.status_id = TransferStatus.DESTINATION_TRANSACTION_FAILED then
            TransferStatus.DESTINATION_TRANSACTION_FAILED
          else TransferStatus.SOURCE_REVERSAL_TRANSACTION_FAILED }
  else t

/-- `update_transfer_nonce` (`database/access.py`): the single UPDATE
statement executed against the transfers table, with all scalar
subqueries evaluated on the pre-state. -/
def update_transfer_nonce (internal_transfer_id : Nat)
    (destination_blockchain : Nat) (latest_blockchain_nonce : Int)
    (transfers : List Transfer) : List Transfer :=
  transfers.map
    (update_transfer_nonce_row internal_transfer_id destination_blockchain
      latest_blockchain_nonce
      (count_failed_nonces destination_blockchain transfers)
      (minimum_failed_nonce destination_blockchain transfers)
      (maximum_transfer_nonce destination_blockchain transfers))

/-! ## Signature counting and on-chain submission gate
(`business/transfers.py`, `TransferInteractor`) -/

/-- The signature-counting loop of
`TransferInteractor.__sufficient_secondary_node_signatures`
(`business/transfers.py`): starting from 1 (the primary node signature),
iterate over the stored signatures; a signature whose stored signer
address equals the primary node address is skipped; signer recovery
(`recover_transfer_to_signer_address`) failing with a
`BlockchainClientError` (modelled as `none`) is logged and skipped;
otherwise the code asserts `is_equal_address` of the stored and the
recovered signer (a failing assertion is `Except.error`) and counts the
signature. -/
def valid_signature_count (primary_node_address : String)
    (is_equal_address : String → String → Bool)
    (recover : String → Option String)
    (signatures : List (String × String)) : Except Unit Nat :=
  signatures.foldlM
    (fun acc p =>
      if p.1 = primary_node_address then Except.ok acc
      else
        match recover p.2 with
        | none => Except.ok acc
        | some recovered =>
            if is_equal_address p.1 recovered then Except.ok (acc + 1)
            else Except.error ())
    1

/-- `TransferInteractor.__sufficient_secondary_node_signatures`: the
count of valid signatures is compared with
`read_minimum_validator_node_signatures`. -/
def sufficient_secondary_node_signatures (primary_node_address : String)
    (is_equal_address : String → String → Bool)
    (recover : String → Option String)
    (signatures : List (String × String)) (minimum_signatures : Nat) :
    Except Unit Bool := do
  let count ← valid_signature_count primary_node_address is_equal_address
    recover signatures
  return minimum_signatures ≤ count

/-- Outcome of `TransferInteractor.submit_transfer_onchain` on the
primary node: the returned Boolean and whether the on-chain submission
(`start_transfer_to_submission`) was started. -/
structure SubmitTransferOnchainOutcome where
  result : Bool
  submission_started : Bool
  deriving DecidableEq, Repr

/-- The quorum gate of `TransferInteractor.submit_transfer_onchain`
(`business/transfers.py`) on the primary node: when
`__sufficient_secondary_node_signatures` is false the function logs and
returns `False` without submitting; otherwise it adds the primary node
signature and proceeds to submit the transaction on chain. -/
def submit_transfer_onchain (primary_node_address : String)
    (is_equal_address : String → String → Bool)
    (recover : String → Option String)
    (signatures : List (String × String)) (minimum_signatures : Nat) :
    Except Unit SubmitTransferOnchainOutcome := do
  let sufficient ← sufficient_secondary_node_signatures primary_node_address
    is_equal_address recover signatures minimum_signatures
  if ¬sufficient then return ⟨false, false⟩
  else return ⟨true, true⟩

/-! ## Transfer confirmation (`business/transfers.py`,
`TransferInteractor.confirm_transfer`) -/

/-- The transaction status enum of `pantos.common.entities` as used by
`confirm_transfer`. -/
inductive TransactionStatus where
  | UNINCLUDED
  | UNCONFIRMED
  | CONFIRMED
  | REVERTED
  deriving DecidableEq, Repr

/-- `BlockchainClient.TransferToSubmissionStatusResponse`
(`blockchains/base.py`). -/
structure TransferToSubmissionStatusResponse where
  transaction_submission_completed : Bool
  transaction_status : Option TransactionStatus := none
  transaction_id : Option String := none
  block_number : Option Int := none
  destination_transfer_id : Option Nat := none
  deriving DecidableEq, Repr

/-- `update_transfer_status` (`database/access.py`) restricted to the
updated row: sets the status and the `updated` timestamp. -/
def update_transfer_status_row (status : TransferStatus) (now : Nat)
    (t : Transfer) : Transfer :=
  { t with status_id := status, updated := some now }

/-- `update_transfer_task_id` (`database/access.py`) restricted to the
updated row: sets the task ID and the `updated` timestamp. -/
def update_transfer_task_id_row (task_id : String) (now : Nat)
    (t : Transfer) : Transfer :=
  { t with task_id := some task_id, updated := some now }

/-- `update_transfer_confirmed_destination_transaction`
(`database/access.py`) restricted to the updated row: sets the
destination transfer ID, transaction ID, block number and the `updated`
timestamp. -/
def update_transfer_confirmed_destination_transaction_row
    (destination_transfer_id : Nat) (destination_transaction_id : String)
    (destination_block_number : Int) (now : Nat) (t : Transfer) : Transfer :=
  { t with
    destination_transfer_id := some destination_transfer_id
    destination_transaction_id := some destination_transaction_id
    destination_block_number := some destination_block_number
    updated := some now }

/-- `TransferInteractor.__restart_validation` (`business/transfers.py`)
restricted to the transfer's row: reset the nonce, set the status to
`SOURCE_TRANSACTION_DETECTED`, schedule `validate_transfer` and store the
new task's ID. -/
def restart_validation_row (now : Nat) (new_task_id : String)
    (t : Transfer) : Transfer :=
  update_transfer_task_id_row new_task_id now
    (update_transfer_status_row TransferStatus.SOURCE_TRANSACTION_DETECTED
      now { t with nonce := none })

/-- Outcome of `TransferInteractor.confirm_transfer`: the returned
Boolean, the transfer's row afterwards, and whether `validate_transfer`
was rescheduled. -/
structure ConfirmTransferOutcome where
  result : Bool
  row : Transfer
  validate_transfer_rescheduled : Bool
  deriving DecidableEq, Repr

/-- `TransferInteractor.confirm_transfer` (`business/transfers.py`).
`status_result` is the result of
`get_transfer_to_submission_status`, with `Except.error ()` standing for
an `UnresolvableTransferToSubmissionError`; the returned `Except.error`
stands for a failing assertion (wrapped in a `TransferInteractorError` by
the enclosing handler). -/
def confirm_transfer (is_reversal_transfer : Bool)
    (status_result : Except Unit TransferToSubmissionStatusResponse)
    (row : Transfer) (now : Nat) (new_task_id : String) :
    Except Unit ConfirmTransferOutcome :=
  match status_result with
  | Except.error _ =>
      Except.ok ⟨true, restart_validation_row now new_task_id row, true⟩
  | Except.ok status_response =>
      if ¬status_response.transaction_submission_completed then
        Except.ok ⟨false, row, false⟩
      else if status_response.transaction_status
          = some TransactionStatus.REVERTED then
        Except.ok ⟨true, restart_validation_row now new_task_id row, true⟩
      else if status_response.transaction_status
          ≠ some TransactionStatus.CONFIRMED then
        Except.error ()
      else
        match status_response.transaction_id, status_response.block_number,
            status_response.destination_transfer_id with
        | some transaction_id, some block_number,
            some destination_transfer_id =>
            Except.ok
              ⟨true,
                update_transfer_status_row
                  (if is_reversal_transfer then
                    TransferStatus.SOURCE_REVERSAL_TRANSACTION_CONFIRMED
                  else TransferStatus.DESTINATION_TRANSACTION_CONFIRMED)
                  now
                  (update_transfer_confirmed_destination_transaction_row
                    destination_transfer_id transaction_id block_number now
                    row),
                false⟩
        | _, _, _ => Except.error ()

/-! ## Transfer detection (`business/transfers.py`,
`TransferInteractor.detect_new_transfers`) -/

/-- `BlockchainClient.ReadOutgoingTransfersFromBlockResponse`
(`blockchains/base.py`). -/
structure OutgoingTransfersResponse where
  outgoing_transfers : List CrossChainTransfer
  to_block_number : Int
  deriving Repr

/-- `EthereumClient.read_outgoing_transfers_from_block`
(`blockchains/ethereum.py`): when the starting block is beyond the
latest block the client returns no transfers and the latest block
number; otherwise it returns the `TransferFromSucceeded` events between
the starting and the latest block (`get_logs` abstracts the windowed
event scan) and the latest block number. -/
def read_outgoing_transfers_from_block
    (get_logs : Int → Int → List CrossChainTransfer)
    (latest_block_number : Int) (from_block_number : Int) :
    OutgoingTransfersResponse :=
  if from_block_number > latest_block_number then ⟨[], latest_block_number⟩
  else ⟨get_logs from_block_number latest_block_number, latest_block_number⟩

/-- `TransferCreationRequest` (`database/access.py`). -/
structure TransferCreationRequest where
  source_blockchain : Nat
  destination_blockchain : Nat
  sender_address : String
  recipient_address : String
  source_token_address : String
  destination_token_address : String
  amount : Nat
  validator_nonce : Nat
  source_hub_address : String
  source_transfer_id : Nat
  source_transaction_id : String
  source_block_number : Int
  deriving DecidableEq, Repr

/-- Database errors of `database/exceptions.py` and the documented
`DatabaseError` raises of `database/access.py`. -/
inductive DatabaseError where
  | validatorNonceNotUnique
  | integrityError
  deriving DecidableEq, Repr

/-- Errors raised out of `TransferInteractor.detect_new_transfers`: the
explicit "most recent block number is smaller than the previously
considered block number" error, and a `TransferInteractorError` wrapping
any other exception (failed assertion, database error) raised in the
body. -/
inductive DetectError where
  | blockNumberWentBackwards
  | wrappedInternalError
  deriving DecidableEq, Repr

/-- Static environment of a `detect_new_transfers` run: the blockchain
configuration entries that the code reads, the contract-table lookup
(`_read_token_contract_id`/`_create_token_contract` and the hub
equivalent, keyed by blockchain and address), the validator nonce
returned by `__find_unused_validator_nonce` for the k-th new transfer
(randomness filtered by `is_valid_validator_nonce`), the Celery task ID
for the k-th scheduled `validate_transfer` task, and the timestamp. -/
structure DetectorEnv where
  confirmations : Int
  from_block : Int
  token_contract_id : Nat → String → Nat
  hub_contract_id : Nat → String → Nat
  draw_validator_nonce : Nat → Nat
  task_id : Nat → String
  now : Nat

/-- Per-chain detector state: the chain's stored last block number and
the transfers table (with the next fresh primary key). -/
structure DetectorState where
  last_block_number : Int
  transfers : List Transfer
  next_transfer_id : Nat
  deriving Repr

/-- `read_transfer_id` (`database/access.py`): the internal ID of the
transfer with the given source blockchain and source transaction
ID/hash. -/
def read_transfer_id (source_blockchain : Nat)
    (source_transaction_id : String) (transfers : List Transfer) :
    Option Nat :=
  (transfers.find? fun t =>
      t.source_blockchain_id = source_blockchain ∧
        t.source_transaction_id = source_transaction_id).map Transfer.id

/-- The transfers-table row inserted by `create_transfer`
(`database/access.py`): status `SOURCE_TRANSACTION_DETECTED`, token and
hub contract rows read or created first. -/
def new_transfer_row (env : DetectorEnv) (id : Nat)
    (request : TransferCreationRequest) : Transfer :=
  { id := id
    source_blockchain_id := request.source_blockchain
    destination_blockchain_id := request.destination_blockchain
    sender_address := request.sender_address
    recipient_address := request.recipient_address
    source_token_contract_id :=
      env.token_contract_id request.source_blockchain
        request.source_token_address
    destination_token_contract_id :=
      env.token_contract_id request.destination_blockchain
        request.destination_token_address
    amount := request.amount
    validator_nonce := request.validator_nonce
    source_hub_contract_id :=
      env.hub_contract_id request.source_blockchain
        request.source_hub_address
    source_transfer_id := request.source_transfer_id
    source_transaction_id := request.source_transaction_id
    source_block_number := request.source_block_number
    status_id := TransferStatus.SOURCE_TRANSACTION_DETECTED }

/-- `create_transfer` (`database/access.py`): inserts the new row and
returns its ID.  The function re-raises an `IntegrityError` naming the
`unique_validator_nonce` constraint as `ValidatorNonceNotUniqueError`;
that constraint is declared over `(destination_forwarder_contract_id,
validator_nonce)` (`database/models.py`) with SQL NULLS-DISTINCT
semantics, and the INSERT does not set
`destination_forwarder_contract_id`, so the inserted NULL forwarder id
collides with no row and the error branch is unreachable for this
INSERT. -/
def create_transfer (env : DetectorEnv) (transfers : List Transfer)
    (next_transfer_id : Nat) (request : TransferCreationRequest) :
    Except DatabaseError (Nat × List Transfer) :=
  let new_row := new_transfer_row env next_transfer_id request
  if transfers.any fun t =>
      sqlEqOptNat t.destination_forwarder_contract_id
          new_row.destination_forwarder_contract_id = true ∧
        t.validator_nonce = request.validator_nonce then
    Except.error DatabaseError.validatorNonceNotUnique
  else
    Except.ok (next_transfer_id, transfers ++ [new_row])

/-- The `TransferCreationRequest` that `detect_new_transfers` builds for
a newly found transfer event, with the validator nonce drawn by
`__find_unused_validator_nonce`. -/
def creation_request_of_event (validator_nonce : Nat)
    (found_transfer : CrossChainTransfer) : TransferCreationRequest :=
  { source_blockchain := found_transfer.source_blockchain
    destination_blockchain := found_transfer.destination_blockchain
    sender_address := found_transfer.sender_address
    recipient_address := found_transfer.recipient_address
    source_token_address := found_transfer.source_token_address
    destination_token_address := found_transfer.destination_token_address
    amount := found_transfer.amount
    validator_nonce := validator_nonce
    source_hub_address := found_transfer.source_hub_address
    source_transfer_id := found_transfer.source_transfer_id
    source_transaction_id := found_transfer.source_transaction_id
    source_block_number := found_transfer.source_block_number }

/-- The body of the `for found_transfer in found_transfers` loop of
`detect_new_transfers` (`business/transfers.py`): an already known
transfer is skipped; a new one gets a validator nonce, is created
(a raised `ValidatorNonceNotUniqueError` propagates out of the loop),
`validate_transfer` is scheduled, and the task ID is stored on the row.
The accumulator carries the transfers table, the next fresh primary key
and the number of transfers created so far in this cycle. -/
def process_found_transfer (env : DetectorEnv)
    (acc : List Transfer × Nat × Nat) (found_transfer : CrossChainTransfer) :
    Except DatabaseError (List Transfer × Nat × Nat) :=
  match read_transfer_id found_transfer.source_blockchain
      found_transfer.source_transaction_id acc.1 with
  | some _ => Except.ok acc
  | none => do
      let validator_nonce := env.draw_validator_nonce acc.2.2
      let request := creation_request_of_event validator_nonce found_transfer
      let (internal_transfer_id, transfers) ←
        create_transfer env acc.1 acc.2.1 request
      let transfers := transfers.map fun t =>
        if t.id = internal_transfer_id then
          update_transfer_task_id_row (env.task_id acc.2.2) env.now t
        else t
      return (transfers, acc.2.1 + 1, acc.2.2 + 1)

/-- `TransferInteractor.detect_new_transfers` (`business/transfers.py`)
for one cycle on one source blockchain, with the client response to
`read_outgoing_transfers_from_block` passed in: compute the starting
block from the stored last block number, the confirmations and the
configured starting block; handle a backwards window; process every
found transfer; finally update the stored last block number (whose
`DatabaseError` on a backwards move — like every other exception in the
body — is wrapped in a `TransferInteractorError`). -/
def detect_new_transfers (env : DetectorEnv) (st : DetectorState)
    (response : OutgoingTransfersResponse) :
    Except DetectError DetectorState :=
  let from_block_number :=
    max (st.last_block_number - env.confirmations) env.from_block
  let found_transfers := response.outgoing_transfers
  let to_block_number := response.to_block_number
  if from_block_number > to_block_number then
    if found_transfers.length ≠ 0 then Except.error .wrappedInternalError
    else if from_block_number - 1 = to_block_number then Except.ok st
    else Except.error .blockNumberWentBackwards
  else
    match found_transfers.foldlM (process_found_transfer env)
        (st.transfers, st.next_transfer_id, 0) with
    | Except.error _ => Except.error .wrappedInternalError
    | Except.ok (transfers, next_transfer_id, _) =>
        match update_blockchain_last_block_number st.last_block_number
            to_block_number with
        | Except.error _ => Except.error .wrappedInternalError
        | Except.ok last_block_number =>
            Except.ok ⟨last_block_number, transfers, next_transfer_id⟩

/-! ## Validator node signatures (`database/access.py`,
`database/models.py`, `business/transfers.py`) -/

/-- A row of the "forwarder_contracts" table (`database/models.py`). -/
structure ForwarderContract where
  id : Nat
  blockchain_id : Nat
  address : String
  deriving DecidableEq, Repr

/-- A row of the "validator_nodes" table (`database/models.py`). -/
structure ValidatorNode where
  id : Nat
  forwarder_contract_id : Nat
  address : String
  deriving DecidableEq, Repr

/-- A row of the "validator_node_signatures" table
(`database/models.py`): `(transfer_id, validator_node_id)` is the
composite primary key and `signature` is globally unique. -/
structure ValidatorNodeSignature where
  transfer_id : Nat
  validator_node_id : Nat
  signature : String
  deriving DecidableEq, Repr

/-- The tables touched by `create_validator_node_signature`, with the
next fresh surrogate primary key. -/
structure SignatureDb where
  forwarder_contracts : List ForwarderContract
  validator_nodes : List ValidatorNode
  validator_node_signatures : List ValidatorNodeSignature
  next_id : Nat
  deriving Repr

/-- `_read_forwarder_contract_id` (`database/access.py`). -/
def read_forwarder_contract_id (db : SignatureDb) (blockchain : Nat)
    (address : String) : Option Nat :=
  (db.forwarder_contracts.find? fun c =>
      c.blockchain_id = blockchain ∧ c.address = address).map
    ForwarderContract.id

/-- `_read_validator_node_id` (`database/access.py`). -/
def read_validator_node_id (db : SignatureDb)
    (forwarder_contract_id : Nat) (address : String) : Option Nat :=
  (db.validator_nodes.find? fun n =>
      n.forwarder_contract_id = forwarder_contract_id ∧
        n.address = address).map ValidatorNode.id

/-- The read-or-create of the forwarder contract row at the start of
`create_validator_node_signature` (`database/access.py`). -/
def ensure_forwarder_contract (db : SignatureDb) (blockchain : Nat)
    (address : String) : Nat × SignatureDb :=
  match read_forwarder_contract_id db blockchain address with
  | some id => (id, db)
  | none =>
      (db.next_id,
        { db with
          forwarder_contracts :=
            db.forwarder_contracts ++ [⟨db.next_id, blockchain, address⟩]
          next_id := db.next_id + 1 })

/-- The read-or-create of the validator node row in
`create_validator_node_signature` (`database/access.py`). -/
def ensure_validator_node (db : SignatureDb) (forwarder_contract_id : Nat)
    (address : String) : Nat × SignatureDb :=
  match read_validator_node_id db forwarder_contract_id address with
  | some id => (id, db)
  | none =>
      (db.next_id,
        { db with
          validator_nodes :=
            db.validator_nodes ++ [⟨db.next_id, forwarder_contract_id, address⟩]
          next_id := db.next_id + 1 })

/-- `create_validator_node_signature` (`database/access.py`): read or
create the forwarder contract and validator node rows, then execute the
plain INSERT of the signature row.  The INSERT violates a unique
constraint — the `(transfer_id, validator_node_id)` primary key or the
globally unique `signature` column — by raising an `IntegrityError`
(`Except.error`), which the function does not catch. -/
def create_validator_node_signature (internal_transfer_id : Nat)
    (destination_blockchain : Nat)
    (destination_forwarder_address : String)
    (validator_node_address : String) (signature : String)
    (db : SignatureDb) : Except DatabaseError SignatureDb :=
  let (destination_forwarder_contract_id, db) :=
    ensure_forwarder_contract db destination_blockchain
      destination_forwarder_address
  let (validator_node_id, db) :=
    ensure_validator_node db destination_forwarder_contract_id
      validator_node_address
  if db.validator_node_signatures.any fun s =>
      (s.transfer_id = internal_transfer_id ∧
        s.validator_node_id = validator_node_id) ∨
        s.signature = signature then
    Except.error DatabaseError.integrityError
  else
    Except.ok
      { db with
        validator_node_signatures :=
          db.validator_node_signatures ++
            [⟨internal_transfer_id, validator_node_id, signature⟩] }

/-- `read_validator_node_signature` (`database/access.py`): the join of
the signatures, validator nodes and forwarder contracts tables filtered
by transfer ID, destination blockchain, forwarder address and validator
node address. -/
def read_validator_node_signature (internal_transfer_id : Nat)
    (destination_blockchain : Nat)
    (destination_forwarder_address : String)
    (validator_node_address : String) (db : SignatureDb) : Option String :=
  (db.validator_node_signatures.find? fun s =>
      s.transfer_id = internal_transfer_id ∧
        db.validator_nodes.any fun n =>
          n.id = s.validator_node_id ∧
            n.address = validator_node_address ∧
            db.forwarder_contracts.any fun c =>
              c.id = n.forwarder_contract_id ∧
                c.blockchain_id = destination_blockchain ∧
                c.address = destination_forwarder_address).map
    ValidatorNodeSignature.signature

/-- `TransferInteractor.__store_validator_node_signature`
(`business/transfers.py`): read the signature first and only create it
when it is not already stored. -/
def store_validator_node_signature (internal_transfer_id : Nat)
    (destination_blockchain : Nat)
    (destination_forwarder_address : String)
    (validator_node_address : String) (signature : String)
    (db : SignatureDb) : Except DatabaseError SignatureDb :=
  match read_validator_node_signature internal_transfer_id
      destination_blockchain destination_forwarder_address
      validator_node_address db with
  | some _ => Except.ok db
  | none =>
      create_validator_node_signature internal_transfer_id
        destination_blockchain destination_forwarder_address
        validator_node_address signature db

/-! ## Signature ordering for the on-chain submission
(`blockchains/ethereum.py`) -/

/-- The numeric value of one hexadecimal digit, as accepted by Python's
`int(s, 16)`. -/
def hexDigitValue (c : Char) : Nat :=
  if '0' ≤ c ∧ c ≤ '9' then c.toNat - '0'.toNat
  else if 'a' ≤ c ∧ c ≤ 'f' then c.toNat - 'a'.toNat + 10
  else if 'A' ≤ c ∧ c ≤ 'F' then c.toNat - 'A'.toNat + 10
  else 0

/-- Python's `int(signer_address, 16)` on the hex address strings handled
by `EthereumClient`: an optional `0x`/`0X` prefix followed by hex
digits. -/
def intOfHexString (s : String) : Nat :=
  let cs := s.data
  let cs :=
    if cs.take 2 = ['0', 'x'] ∨ cs.take 2 = ['0', 'X'] then cs.drop 2
    else cs
  cs.foldl (fun acc c => acc * 16 + hexDigitValue c) 0

/-- `EthereumClient.__sort_validator_node_signatures`
(`blockchains/ethereum.py`): the signer addresses (the keys of the
signatures mapping, embedded as an association list) sorted ascending by
`int(signer_address, 16)` (Python's stable sort), paired with the list of
the mapping's values in the same order. -/
def sort_validator_node_signatures
    (validator_node_signatures : List (String × String)) :
    List String × List String :=
  let sorted_signer_addresses :=
    (validator_node_signatures.map Prod.fst).mergeSort fun a b =>
      intOfHexString a ≤ intOfHexString b
  let sorted_signatures :=
    sorted_signer_addresses.map fun signer_address =>
      ((validator_node_signatures.lookup signer_address).getD "")
  (sorted_signer_addresses, sorted_signatures)

/-! ## Sample data used by the witness theorems -/

/-- A concrete reversal cross-chain transfer. -/
def sampleReversalTransfer : CrossChainTransfer :=
  { source_blockchain := 0
    destination_blockchain := 1
    source_hub_address := "0x11"
    source_transfer_id := 4
    source_transaction_id := "0xabc"
    source_block_number := 9480704
    source_block_hash := "0xdef"
    sender_address := "0x21"
    recipient_address := "0x32"
    source_token_address := "0x43"
    destination_token_address := "0x54"
    amount := 100
    fee := 1
    service_node_address := "0x65"
    is_reversal_transfer := true }

/-- A concrete transfers-table row. -/
def sampleRow : Transfer :=
  { id := 1
    source_blockchain_id := 0
    destination_blockchain_id := 1
    sender_address := "0x21"
    recipient_address := "0x32"
    source_token_contract_id := 1
    destination_token_contract_id := 2
    amount := 100
    validator_nonce := 77
    source_hub_contract_id := 1
    task_id := some "task-1"
    source_transfer_id := 4
    source_transaction_id := "0xabc"
    source_block_number := 9480704
    nonce := some 5
    status_id := TransferStatus.DESTINATION_TRANSACTION_SUBMITTED
    updated := some 3 }

/-! ## C9 -/

/-- C9: for every cross-chain transfer, the three `eventual_*` values are
the source-side values (source blockchain, sender, source token) exactly
when the transfer is a reversal transfer, and the destination-side values
(destination blockchain, recipient, destination token) otherwise. -/
theorem eventual_destination_spec (t : CrossChainTransfer) :
    (t.is_reversal_transfer = true →
      t.eventual_destination_blockchain = t.source_blockchain ∧
        t.eventual_recipient_address = t.sender_address ∧
        t.eventual_destination_token_address = t.source_token_address) ∧
    (t.is_reversal_transfer = false →
      t.eventual_destination_blockchain = t.destination_blockchain ∧
        t.eventual_recipient_address = t.recipient_address ∧
        t.eventual_destination_token_address
          = t.destination_token_address) := by
  constructor <;> intro h <;>
    simp [CrossChainTransfer.eventual_destination_blockchain,
      CrossChainTransfer.eventual_recipient_address,
      CrossChainTransfer.eventual_destination_token_address, h]

/-- Witness for C9 at a concrete reversal transfer. -/
theorem eventual_destination_spec_witness :
    (sampleReversalTransfer.is_reversal_transfer = true →
      sampleReversalTransfer.eventual_destination_blockchain
          = sampleReversalTransfer.source_blockchain ∧
        sampleReversalTransfer.eventual_recipient_address
            = sampleReversalTransfer.sender_address ∧
          sampleReversalTransfer.eventual_destination_token_address
            = sampleReversalTransfer.source_token_address) ∧
    (sampleReversalTransfer.is_reversal_transfer = false →
      sampleReversalTransfer.eventual_destination_blockchain
          = sampleReversalTransfer.destination_blockchain ∧
        sampleReversalTransfer.eventual_recipient_address
            = sampleReversalTransfer.recipient_address ∧
          sampleReversalTransfer.eventual_destination_token_address
            = sampleReversalTransfer.destination_token_address) :=
  eventual_destination_spec sampleReversalTransfer

/-! ## C7 -/

/-- C7: `update_blockchain_last_block_number` raises an error exactly
when the new number is strictly below the stored one (leaving the stored
value unchanged, as captured by `apply_last_block_number_updates`), and
otherwise the stored value afterwards equals the new number; hence over
any sequence of update calls the stored last block number never
decreases. -/
theorem update_blockchain_last_block_number_monotonic :
    (∀ stored last_block_number : Int,
      (last_block_number < stored →
        ∃ message, update_blockchain_last_block_number stored
          last_block_number = Except.error message) ∧
      (stored ≤ last_block_number →
        update_blockchain_last_block_number stored last_block_number
          = Except.ok last_block_number)) ∧
    ∀ (stored : Int) (updates : List Int),
      stored ≤ apply_last_block_number_updates stored updates := by
  have hstep : ∀ (s n : Int),
      s ≤ match update_blockchain_last_block_number s n with
        | Except.ok v => v
        | Except.error _ => s := by
    intro s n
    unfold update_blockchain_last_block_number
    split_ifs with h1 h2
    · exact le_refl s
    · exact le_of_not_lt h1
    · exact le_refl s
  constructor
  · intro stored n
    constructor
    · intro hlt
      refine ⟨"stored last block number is greater than given block number",
        ?_⟩
      unfold update_blockchain_last_block_number
      rw [if_pos hlt]
    · intro hle
      unfold update_blockchain_last_block_number
      rw [if_neg (not_lt_of_le hle)]
      by_cases heq : stored = n
      · subst heq
        simp
      · simp [heq]
  · intro stored updates
    induction updates generalizing stored with
    | nil => exact le_refl stored
    | cons n rest ih =>
        have hcons : apply_last_block_number_updates stored (n :: rest)
            = apply_last_block_number_updates
              (match update_blockchain_last_block_number stored n with
                | Except.ok v => v
                | Except.error _ => stored) rest := rfl
        rw [hcons]
        exact le_trans (hstep stored n) (ih _)

/-- Witness for C7 at concrete stored values and a concrete update
sequence. -/
theorem update_blockchain_last_block_number_monotonic_witness :
    (3 : Int) < 10 ∧
    (∃ message, update_blockchain_last_block_number 10 3
      = Except.error message) ∧
    update_blockchain_last_block_number 10 12 = Except.ok 12 ∧
    (10 : Int) ≤ apply_last_block_number_updates 10 [12, 3, 15] := by
  have h := update_blockchain_last_block_number_monotonic
  exact ⟨by decide, (h.1 10 3).1 (by decide), (h.1 10 12).2 (by decide),
    h.2 10 [12, 3, 15]⟩

/-! ## C10 -/

/-- C10: `reset_transfer_nonce` sets the nonce of the transfer with the
given ID to NULL and changes nothing else: the row keeps every other
field (in particular status, task ID, validator nonce and the updated
timestamp), and every row with a different ID is entirely unchanged. -/
theorem reset_transfer_nonce_frame (transfers : List Transfer) (tid : Nat)
    (i : Nat) (hi : i < transfers.length) :
    (reset_transfer_nonce tid transfers).length = transfers.length ∧
    ((transfers.get ⟨i, hi⟩).id = tid →
      (reset_transfer_nonce tid transfers).get
          ⟨i, by simpa [reset_transfer_nonce] using hi⟩
        = { transfers.get ⟨i, hi⟩ with nonce := none } ∧
      ((reset_transfer_nonce tid transfers).get
          ⟨i, by simpa [reset_transfer_nonce] using hi⟩).status_id
        = (transfers.get ⟨i, hi⟩).status_id ∧
      ((reset_transfer_nonce tid transfers).get
          ⟨i, by simpa [reset_transfer_nonce] using hi⟩).task_id
        = (transfers.get ⟨i, hi⟩).task_id ∧
      ((reset_transfer_nonce tid transfers).get
          ⟨i, by simpa [reset_transfer_nonce] using hi⟩).validator_nonce
        = (transfers.get ⟨i, hi⟩).validator_nonce ∧
      ((reset_transfer_nonce tid transfers).get
          ⟨i, by simpa [reset_transfer_nonce] using hi⟩).updated
        = (transfers.get ⟨i, hi⟩).updated) ∧
    ((transfers.get ⟨i, hi⟩).id ≠ tid →
      (reset_transfer_nonce tid transfers).get
          ⟨i, by simpa [reset_transfer_nonce] using hi⟩
        = transfers.get ⟨i, hi⟩) := by
  refine ⟨by simp [reset_transfer_nonce], ?_, ?_⟩
  · intro hid
    have hget : (reset_transfer_nonce tid transfers).get
        ⟨i, by simpa [reset_transfer_nonce] using hi⟩
        = { transfers.get ⟨i, hi⟩ with nonce := none } := by
      simp only [List.get_eq_getElem] at hid
      simp only [reset_transfer_nonce, List.get_eq_getElem, List.getElem_map]
      rw [if_pos hid]
    exact ⟨hget, by rw [hget], by rw [hget], by rw [hget], by rw [hget]⟩
  · intro hid
    simp only [List.get_eq_getElem] at hid
    simp only [reset_transfer_nonce, List.get_eq_getElem, List.getElem_map]
    rw [if_neg hid]

/-- Witness for C10 on a concrete two-row table. -/
theorem reset_transfer_nonce_frame_witness :
    0 < [sampleRow, { sampleRow with id := 2 }].length ∧
    (reset_transfer_nonce 1 [sampleRow, { sampleRow with id := 2 }]).length
        = [sampleRow, { sampleRow with id := 2 }].length ∧
    (reset_transfer_nonce 1
        [sampleRow, { sampleRow with id := 2 }]).get ⟨0, by decide⟩
      = { sampleRow with nonce := none } ∧
    (reset_transfer_nonce 1
        [sampleRow, { sampleRow with id := 2 }]).get ⟨1, by decide⟩
      = { sampleRow with id := 2 } := by
  have h := reset_transfer_nonce_frame
    [sampleRow, { sampleRow with id := 2 }] 1 0 (by decide)
  have h2 := reset_transfer_nonce_frame
    [sampleRow, { sampleRow with id := 2 }] 1 1 (by decide)
  exact ⟨by decide, h.1, (h.2.1 (by decide)).1, h2.2.2 (by decide)⟩

/-! ## C2 -/

/-- The signature-counting fold, started from an arbitrary accumulator,
adds the number of signatures whose signer differs from the primary
address and whose signer recovery succeeds, provided every successful
recovery matches the stored signer (the code's assertion). -/
theorem valid_signature_count_fold (primary_node_address : String)
    (is_equal_address : String → String → Bool)
    (recover : String → Option String) :
    ∀ (signatures : List (String × String)) (acc : Nat),
      (∀ p ∈ signatures, ∀ recovered, recover p.2 = some recovered →
        is_equal_address p.1 recovered = true) →
      signatures.foldlM
          (fun acc p =>
            if p.1 = primary_node_address then Except.ok acc
            else
              match recover p.2 with
              | none => Except.ok acc
              | some recovered =>
                  if is_equal_address p.1 recovered then Except.ok (acc + 1)
                  else Except.error ())
          acc
        = Except.ok
          (acc +
            (signatures.filter fun p =>
              p.1 ≠ primary_node_address ∧ (recover p.2).isSome).length) := by
  intro signatures
  induction signatures with
  | nil =>
      intro acc _
      rfl
  | cons p rest ih =>
      intro acc hassert
      have hrest := fun q hq => hassert q (List.mem_cons_of_mem p hq)
      by_cases hp : p.1 = primary_node_address
      · simpa [List.foldlM_cons, hp] using ih acc hrest
      · cases hrec : recover p.2 with
        | none =>
            simpa [List.foldlM_cons, hp, hrec] using ih acc hrest
        | some recovered =>
            have heq := hassert p (List.mem_cons_self p rest) recovered hrec
            have := ih (acc + 1) hrest
            simp only [List.foldlM_cons, hp, hrec, heq, if_neg hp, if_pos,
              if_true, List.filter_cons]
            simpa [hp, hrec, Nat.add_comm, Nat.add_assoc,
              Nat.add_left_comm] using this

/-- C2: in `submit_transfer_onchain` on the primary node the signature
count is 1 (the primary's implicit signature) plus the number of stored
signatures whose stored signer is not the primary's address and whose
signer is successfully recovered (failed recoveries are skipped, not
counted); the on-chain submission starts if and only if that count
reaches `read_minimum_validator_node_signatures`, and below the minimum
the operation returns false without submitting. -/
theorem submit_transfer_onchain_quorum (primary_node_address : String)
    (is_equal_address : String → String → Bool)
    (recover : String → Option String)
    (signatures : List (String × String)) (minimum_signatures : Nat)
    (hassert : ∀ p ∈ signatures, ∀ recovered,
      recover p.2 = some recovered →
        is_equal_address p.1 recovered = true) :
    valid_signature_count primary_node_address is_equal_address recover
        signatures
      = Except.ok
        (1 +
          (signatures.filter fun p =>
            p.1 ≠ primary_node_address ∧ (recover p.2).isSome).length) ∧
    submit_transfer_onchain primary_node_address is_equal_address recover
        signatures minimum_signatures
      = Except.ok
        ⟨decide (minimum_signatures ≤
            1 + (signatures.filter fun p =>
              p.1 ≠ primary_node_address ∧ (recover p.2).isSome).length),
          decide (minimum_signatures ≤
            1 + (signatures.filter fun p =>
              p.1 ≠ primary_node_address ∧ (recover p.2).isSome).length)⟩ ∧
    (1 + (signatures.filter fun p =>
        p.1 ≠ primary_node_address ∧ (recover p.2).isSome).length
        < minimum_signatures →
      submit_transfer_onchain primary_node_address is_equal_address recover
          signatures minimum_signatures
        = Except.ok ⟨false, false⟩) := by
  have hcount : valid_signature_count primary_node_address is_equal_address
      recover signatures
      = Except.ok
        (1 + (signatures.filter fun p =>
          p.1 ≠ primary_node_address ∧ (recover p.2).isSome).length) :=
    valid_signature_count_fold primary_node_address is_equal_address recover
      signatures 1 hassert
  have hsame : (signatures.filter fun p =>
        !decide (p.1 = primary_node_address) && (recover p.2).isSome).length
      = (signatures.filter fun p =>
        decide (p.1 ≠ primary_node_address ∧
          (recover p.2).isSome = true)).length := by
    congr 1
    apply List.filter_congr
    intro p _
    by_cases h1 : p.1 = primary_node_address <;> simp [h1]
  refine ⟨hcount, ?_, ?_⟩
  · cases hd : decide (minimum_signatures ≤
        1 + (signatures.filter fun p =>
          p.1 ≠ primary_node_address ∧ (recover p.2).isSome).length)
    · simp only [decide_eq_false_iff_not, not_le] at hd
      simp [submit_transfer_onchain, sufficient_secondary_node_signatures,
        hcount, Bind.bind, Except.bind, pure, Except.pure]
      rw [hsame]
      omega
    · simp only [decide_eq_true_eq] at hd
      simp [submit_transfer_onchain, sufficient_secondary_node_signatures,
        hcount, Bind.bind, Except.bind, pure, Except.pure]
      rw [hsame]
      omega
  · intro hlt
    simp [submit_transfer_onchain, sufficient_secondary_node_signatures,
      hcount, Bind.bind, Except.bind, pure, Except.pure]
    rw [hsame]
    omega

/-- Witness for C2: one secondary signature next to the primary's own,
quorum of three not reached. -/
theorem submit_transfer_onchain_quorum_witness :
    valid_signature_count "0xaaaa"
        (fun a b => a = b) (fun s => if s = "sig1" then some "0xbbbb" else none)
        [("0xbbbb", "sig1"), ("0xcccc", "bad")]
      = Except.ok 2 ∧
    submit_transfer_onchain "0xaaaa"
        (fun a b => a = b) (fun s => if s = "sig1" then some "0xbbbb" else none)
        [("0xbbbb", "sig1"), ("0xcccc", "bad")] 3
      = Except.ok ⟨false, false⟩ := by
  have h := submit_transfer_onchain_quorum "0xaaaa"
    (fun a b => a = b) (fun s => if s = "sig1" then some "0xbbbb" else none)
    [("0xbbbb", "sig1"), ("0xcccc", "bad")] 3 (by decide)
  refine ⟨?_, h.2.2 (by decide)⟩
  have h1 := h.1
  simpa using h1

/-! ## C3 -/

/-- C3: `confirm_transfer` returns false while the submission is not yet
completed; on an `UnresolvableTransferToSubmissionError` or a REVERTED
transaction it nulls the nonce, sets the status to
`SOURCE_TRANSACTION_DETECTED`, reschedules `validate_transfer` and
returns true; on a CONFIRMED transaction it persists the destination
transfer ID, transaction ID and block number, sets the status to
`SOURCE_REVERSAL_TRANSACTION_CONFIRMED` for a reversal transfer and
`DESTINATION_TRANSACTION_CONFIRMED` otherwise, and returns true. -/
theorem confirm_transfer_spec (is_reversal_transfer : Bool)
    (status_result : Except Unit TransferToSubmissionStatusResponse)
    (row : Transfer) (now : Nat) (new_task_id : String) :
    (∀ status_response, status_result = Except.ok status_response →
      status_response.transaction_submission_completed = false →
      confirm_transfer is_reversal_transfer status_result row now new_task_id
        = Except.ok ⟨false, row, false⟩) ∧
    ((status_result = Except.error () ∨
      ∃ status_response, status_result = Except.ok status_response ∧
        status_response.transaction_submission_completed = true ∧
        status_response.transaction_status
          = some TransactionStatus.REVERTED) →
      ∃ outcome, confirm_transfer is_reversal_transfer status_result row now
          new_task_id = Except.ok outcome ∧
        outcome.result = true ∧
        outcome.row.nonce = none ∧
        outcome.row.status_id = TransferStatus.SOURCE_TRANSACTION_DETECTED ∧
        outcome.validate_transfer_rescheduled = true) ∧
    (∀ status_response transaction_id block_number destination_transfer_id,
      status_result = Except.ok status_response →
      status_response.transaction_submission_completed = true →
      status_response.transaction_status
        = some TransactionStatus.CONFIRMED →
      status_response.transaction_id = some transaction_id →
      status_response.block_number = some block_number →
      status_response.destination_transfer_id
        = some destination_transfer_id →
      ∃ outcome, confirm_transfer is_reversal_transfer status_result row now
          new_task_id = Except.ok outcome ∧
        outcome.result = true ∧
        outcome.row.destination_transfer_id = some destination_transfer_id ∧
        outcome.row.destination_transaction_id = some transaction_id ∧
        outcome.row.destination_block_number = some block_number ∧
        outcome.row.status_id
          = (if is_reversal_transfer then
              TransferStatus.SOURCE_REVERSAL_TRANSACTION_CONFIRMED
            else TransferStatus.DESTINATION_TRANSACTION_CONFIRMED)) := by
  refine ⟨?_, ?_, ?_⟩
  · intro status_response hok hnc
    subst hok
    simp [confirm_transfer, hnc]
  · intro hcase
    rcases hcase with herr | ⟨status_response, hok, hc, hrev⟩
    · subst herr
      exact ⟨⟨true, restart_validation_row now new_task_id row, true⟩,
        rfl, rfl, rfl, rfl, rfl⟩
    · subst hok
      refine ⟨⟨true, restart_validation_row now new_task_id row, true⟩,
        ?_, rfl, rfl, rfl, rfl⟩
      simp [confirm_transfer, hc, hrev]
  · intro status_response transaction_id block_number
      destination_transfer_id hok hc hconf htx hbn hdt
    subst hok
    refine ⟨⟨true,
      update_transfer_status_row
        (if is_reversal_transfer then
          TransferStatus.SOURCE_REVERSAL_TRANSACTION_CONFIRMED
        else TransferStatus.DESTINATION_TRANSACTION_CONFIRMED) now
        (update_transfer_confirmed_destination_transaction_row
          destination_transfer_id transaction_id block_number now row),
      false⟩, ?_, rfl, rfl, rfl, rfl, rfl⟩
    simp [confirm_transfer, hc, hconf, htx, hbn, hdt]

/-- Witness for C3 in the REVERTED case at concrete inputs. -/
theorem confirm_transfer_spec_witness :
    ∃ outcome,
      confirm_transfer false
          (Except.ok
            { transaction_submission_completed := true
              transaction_status := some TransactionStatus.REVERTED })
          sampleRow 9 "task-2"
        = Except.ok outcome ∧
      outcome.result = true ∧
      outcome.row.nonce = none ∧
      outcome.row.status_id = TransferStatus.SOURCE_TRANSACTION_DETECTED ∧
      outcome.validate_transfer_rescheduled = true :=
  (confirm_transfer_spec false
      (Except.ok
        { transaction_submission_completed := true
          transaction_status := some TransactionStatus.REVERTED })
      sampleRow 9 "task-2").2.1
    (Or.inr ⟨_, rfl, rfl, rfl⟩)

/-! ## C8 -/

/-- Looking up a key that occurs among the keys of an association list
yields a value paired with that key in the list. -/
theorem lookup_mem_of_mem_keys (sigs : List (String × String))
    (a : String) (ha : a ∈ sigs.map Prod.fst) :
    ∃ v, sigs.lookup a = some v ∧ (a, v) ∈ sigs := by
  induction sigs with
  | nil => simp at ha
  | cons p rest ih =>
      simp only [List.map_cons, List.mem_cons] at ha
      by_cases hbeq : a = p.1
      · have hbt : (a == p.1) = true := beq_iff_eq.mpr hbeq
        refine ⟨p.2, ?_, ?_⟩
        · simp [List.lookup, hbt]
        · rw [show (a, p.2) = p from Prod.ext hbeq rfl]
          exact List.mem_cons_self p rest
      · have hbf : (a == p.1) = false := beq_eq_false_iff_ne.mpr hbeq
        have htail : a ∈ rest.map Prod.fst := by
          rcases ha with h | h
          · exact absurd h hbeq
          · exact h
        obtain ⟨v, hvl, hvm⟩ := ih htail
        refine ⟨v, ?_, List.mem_cons_of_mem p hvm⟩
        simp [List.lookup, hbf, hvl]

/-- C8: for a non-empty signatures mapping with distinct signer
addresses, `__sort_validator_node_signatures` returns the mapping's keys
as a permutation sorted ascending by the numeric (hex) value of the
address, with the signature list aligned so that the i-th signature is
the mapping's value for the i-th sorted signer address. -/
theorem sort_validator_node_signatures_spec
    (validator_node_signatures : List (String × String))
    (hne : validator_node_signatures ≠ [])
    (hnodup : (validator_node_signatures.map Prod.fst).Nodup) :
    ((sort_validator_node_signatures validator_node_signatures).1.Perm
      (validator_node_signatures.map Prod.fst)) ∧
    ((sort_validator_node_signatures validator_node_signatures).1.Pairwise
      fun a b => intOfHexString a ≤ intOfHexString b) ∧
    ((sort_validator_node_signatures validator_node_signatures).2.length
      = (sort_validator_node_signatures
          validator_node_signatures).1.length) ∧
    ∀ i (hi : i <
      (sort_validator_node_signatures validator_node_signatures).1.length),
      ((sort_validator_node_signatures validator_node_signatures).1.get
          ⟨i, hi⟩,
        (sort_validator_node_signatures validator_node_signatures).2.get
          ⟨i, by simpa [sort_validator_node_signatures] using hi⟩)
        ∈ validator_node_signatures := by
  refine ⟨List.mergeSort_perm _ _, ?_, by
    simp [sort_validator_node_signatures], ?_⟩
  · have hsorted := @List.sorted_mergeSort String
      (fun a b : String => decide (intOfHexString a ≤ intOfHexString b))
      (fun a b c hab hbc => by
        simp only [decide_eq_true_eq] at *
        omega)
      (fun a b => by
        simp only [Bool.or_eq_true, decide_eq_true_eq]
        omega)
      (validator_node_signatures.map Prod.fst)
    exact hsorted.imp fun h => of_decide_eq_true h
  · intro i hi
    have haddr : (sort_validator_node_signatures
        validator_node_signatures).1.get ⟨i, hi⟩
        ∈ (sort_validator_node_signatures validator_node_signatures).1 :=
      List.get_mem _ _ hi
    have hkeys : (sort_validator_node_signatures
        validator_node_signatures).1.get ⟨i, hi⟩
        ∈ validator_node_signatures.map Prod.fst :=
      (List.mergeSort_perm _ _).mem_iff.mp haddr
    obtain ⟨v, hvl, hvm⟩ := lookup_mem_of_mem_keys
      validator_node_signatures _ hkeys
    have hget : (sort_validator_node_signatures
        validator_node_signatures).2.get
        ⟨i, by simpa [sort_validator_node_signatures] using hi⟩
        = ((validator_node_signatures.lookup
            ((sort_validator_node_signatures
              validator_node_signatures).1.get ⟨i, hi⟩)).getD "") := by
      simp [sort_validator_node_signatures, List.get_eq_getElem,
        List.getElem_map]
    rw [hget, hvl]
    exact hvm

/-- A concrete signatures mapping whose keys are out of numeric order. -/
def sampleSignatures : List (String × String) :=
  [("0xB", "sigB"), ("0x2", "sig2")]

/-- Witness for C8 at a concrete two-entry signatures mapping. -/
theorem sort_validator_node_signatures_spec_witness :
    ((sort_validator_node_signatures sampleSignatures).1.Perm
      (sampleSignatures.map Prod.fst)) ∧
    ((sort_validator_node_signatures sampleSignatures).1.Pairwise
      fun a b => intOfHexString a ≤ intOfHexString b) ∧
    ((sort_validator_node_signatures sampleSignatures).2.length
      = (sort_validator_node_signatures sampleSignatures).1.length) ∧
    ((sort_validator_node_signatures sampleSignatures).1.get
        ⟨0, by
          simp [sampleSignatures, sort_validator_node_signatures,
            List.length_mergeSort]⟩,
      (sort_validator_node_signatures sampleSignatures).2.get
        ⟨0, by
          simp [sampleSignatures, sort_validator_node_signatures,
            List.length_mergeSort]⟩) ∈ sampleSignatures := by
  have h := sort_validator_node_signatures_spec sampleSignatures
    (by decide) (by decide)
  exact ⟨h.1, h.2.1, h.2.2.1, h.2.2.2 0 (by
    simp [sampleSignatures, sort_validator_node_signatures,
      List.length_mergeSort])⟩

/-! ## C1 -/

/-- The UPDATE of `update_transfer_nonce` touches every row in place. -/
theorem update_transfer_nonce_get (transfers : List Transfer)
    (tid chain : Nat) (latest : Int) (k : Nat)
    (hk : k < transfers.length) :
    (update_transfer_nonce tid chain latest transfers).get
        ⟨k, by simpa [update_transfer_nonce] using hk⟩
      = update_transfer_nonce_row tid chain latest
        (count_failed_nonces chain transfers)
        (minimum_failed_nonce chain transfers)
        (maximum_transfer_nonce chain transfers)
        (transfers.get ⟨k, hk⟩) := by
  simp [update_transfer_nonce, List.get_eq_getElem, List.getElem_map]

/-- C1: `update_transfer_nonce` with F the set of transfers on the
destination chain in a `*_FAILED` status with a non-NULL nonce.  If F is
empty, the transfer with the given ID is assigned `max + 1` when the
existing maximum nonce on the chain is at least the latest blockchain
nonce and the latest blockchain nonce otherwise; if F is non-empty, the
transfer is assigned `min F`, and the distinct transfer that held that
minimum nonce gets its nonce set to NULL while keeping its `*_FAILED`
status; the updated target's status advances to the corresponding
`*_NEW_NONCE_ASSIGNED` variant. -/
theorem update_transfer_nonce_spec (transfers : List Transfer)
    (tid chain : Nat) (latest : Int) (i : Nat) (hi : i < transfers.length)
    (hid : (transfers.get ⟨i, hi⟩).id = tid) :
    (count_failed_nonces chain transfers = 0 →
      ((update_transfer_nonce tid chain latest transfers).get
          ⟨i, by simpa [update_transfer_nonce] using hi⟩).nonce
        = some (match maximum_transfer_nonce chain transfers with
            | some m => if latest ≤ m then m + 1 else latest
            | none => latest)) ∧
    (count_failed_nonces chain transfers ≠ 0 →
      ((update_transfer_nonce tid chain latest transfers).get
          ⟨i, by simpa [update_transfer_nonce] using hi⟩).nonce
        = minimum_failed_nonce chain transfers) ∧
    ((transfers.get ⟨i, hi⟩).status_id
        = TransferStatus.SOURCE_TRANSACTION_DETECTED →
      ((update_transfer_nonce tid chain latest transfers).get
          ⟨i, by simpa [update_transfer_nonce] using hi⟩).status_id
        = TransferStatus.SOURCE_TRANSACTION_DETECTED_NEW_NONCE_ASSIGNED) ∧
    ((transfers.get ⟨i, hi⟩).status_id
        = TransferStatus.DESTINATION_TRANSACTION_FAILED →
      ((update_transfer_nonce tid chain latest transfers).get
          ⟨i, by simpa [update_transfer_nonce] using hi⟩).status_id
        = TransferStatus.DESTINATION_TRANSACTION_FAILED_NEW_NONCE_ASSIGNED) ∧
    ((transfers.get ⟨i, hi⟩).status_id
        = TransferStatus.SOURCE_REVERSAL_TRANSACTION_FAILED →
      ((update_transfer_nonce tid chain latest transfers).get
          ⟨i, by simpa [update_transfer_nonce] using hi⟩).status_id
        = TransferStatus.SOURCE_REVERSAL_TRANSACTION_FAILED_NEW_NONCE_ASSIGNED)
      ∧
    ∀ j (hj : j < transfers.length),
      (transfers.get ⟨j, hj⟩).id ≠ tid →
      failed_transactions_expression chain (transfers.get ⟨j, hj⟩) = true →
      (transfers.get ⟨j, hj⟩).nonce = minimum_failed_nonce chain transfers →
      ((update_transfer_nonce tid chain latest transfers).get
          ⟨j, by simpa [update_transfer_nonce] using hj⟩).nonce = none ∧
      ((update_transfer_nonce tid chain latest transfers).get
          ⟨j, by simpa [update_transfer_nonce] using hj⟩).status_id
        = (transfers.get ⟨j, hj⟩).status_id := by
  have hmatched : ((transfers.get ⟨i, hi⟩).id = tid ∨
      ((transfers.get ⟨i, hi⟩).destination_blockchain_id = chain ∧
        sqlEqOpt (transfers.get ⟨i, hi⟩).nonce
          (minimum_failed_nonce chain transfers) = true)) := Or.inl hid
  simp only [List.get_eq_getElem] at hid
  refine ⟨?_, ?_, ?_, ?_, ?_, ?_⟩
  · intro hcnt
    rw [update_transfer_nonce_get transfers tid chain latest i hi]
    simp only [update_transfer_nonce_row, if_pos hmatched, hcnt, if_pos rfl]
    cases hmax : maximum_transfer_nonce chain transfers <;>
      simp [sqlGeOpt, hmax]
  · intro hcnt
    rw [update_transfer_nonce_get transfers tid chain latest i hi]
    simp only [update_transfer_nonce_row, if_pos hmatched]
    simp [hcnt, hid]
  · intro hst
    simp only [List.get_eq_getElem] at hst
    rw [update_transfer_nonce_get transfers tid chain latest i hi]
    simp only [update_transfer_nonce_row, if_pos hmatched]
    simp [hid, hst]
  · intro hst
    simp only [List.get_eq_getElem] at hst
    rw [update_transfer_nonce_get transfers tid chain latest i hi]
    simp only [update_transfer_nonce_row, if_pos hmatched]
    simp [hid, hst]
  · intro hst
    simp only [List.get_eq_getElem] at hst
    rw [update_transfer_nonce_get transfers tid chain latest i hi]
    simp only [update_transfer_nonce_row, if_pos hmatched]
    simp [hid, hst]
  · intro j hj hjne hjfail hjmin
    have hmem : transfers.get ⟨j, hj⟩
        ∈ transfers.filter (failed_transactions_expression chain) :=
      List.mem_filter.mpr ⟨List.get_mem _ _ hj, hjfail⟩
    have hcnt : count_failed_nonces chain transfers ≠ 0 := by
      have := List.length_pos.mpr (List.ne_nil_of_mem hmem)
      simp only [count_failed_nonces]
      omega
    have hfailprops : (transfers.get ⟨j, hj⟩).destination_blockchain_id
        = chain ∧ (transfers.get ⟨j, hj⟩).nonce.isSome = true ∧
        ((transfers.get ⟨j, hj⟩).status_id
            = TransferStatus.DESTINATION_TRANSACTION_FAILED ∨
          (transfers.get ⟨j, hj⟩).status_id
            = TransferStatus.SOURCE_REVERSAL_TRANSACTION_FAILED) := by
      simpa [failed_transactions_expression] using hjfail
    obtain ⟨x, hx⟩ := Option.isSome_iff_exists.mp hfailprops.2.1
    have hjmatched : ((transfers.get ⟨j, hj⟩).id = tid ∨
        ((transfers.get ⟨j, hj⟩).destination_blockchain_id = chain ∧
          sqlEqOpt (transfers.get ⟨j, hj⟩).nonce
            (minimum_failed_nonce chain transfers) = true)) := by
      refine Or.inr ⟨hfailprops.1, ?_⟩
      rw [hx] at hjmin ⊢
      rw [← hjmin]
      simp [sqlEqOpt]
    simp only [List.get_eq_getElem] at hjne
    constructor
    · rw [update_transfer_nonce_get transfers tid chain latest j hj]
      simp only [update_transfer_nonce_row, if_pos hjmatched]
      simp [hcnt, hjne]
    · rw [update_transfer_nonce_get transfers tid chain latest j hj]
      simp only [update_transfer_nonce_row, if_pos hjmatched]
      rcases hfailprops.2.2 with hdtf | hsrtf
      · simp only [List.get_eq_getElem] at hdtf
        simp [hjne, hdtf]
      · have hne2 : (transfers.get ⟨j, hj⟩).status_id
            ≠ TransferStatus.DESTINATION_TRANSACTION_FAILED := by
          rw [hsrtf]
          intro hcontra
          cases hcontra
        simp only [List.get_eq_getElem] at hne2 hsrtf
        simp [hjne, hne2, hsrtf]

/-- A concrete target transfer awaiting a nonce. -/
def sampleNonceTarget : Transfer :=
  { sampleRow with
    id := 1
    nonce := none
    status_id := TransferStatus.SOURCE_TRANSACTION_DETECTED }

/-- A concrete failed transfer holding a recyclable nonce. -/
def sampleFailedRow : Transfer :=
  { sampleRow with
    id := 5
    nonce := some 4
    status_id := TransferStatus.DESTINATION_TRANSACTION_FAILED }

/-- Witness for C1 on a concrete table with one recyclable failed
nonce. -/
theorem update_transfer_nonce_spec_witness :
    count_failed_nonces 1 [sampleNonceTarget, sampleFailedRow] ≠ 0 ∧
    ((update_transfer_nonce 1 1 0
        [sampleNonceTarget, sampleFailedRow]).get ⟨0, by decide⟩).nonce
      = minimum_failed_nonce 1 [sampleNonceTarget, sampleFailedRow] ∧
    ((update_transfer_nonce 1 1 0
        [sampleNonceTarget, sampleFailedRow]).get ⟨0, by decide⟩).status_id
      = TransferStatus.SOURCE_TRANSACTION_DETECTED_NEW_NONCE_ASSIGNED ∧
    ((update_transfer_nonce 1 1 0
        [sampleNonceTarget, sampleFailedRow]).get ⟨1, by decide⟩).nonce
      = none ∧
    ((update_transfer_nonce 1 1 0
        [sampleNonceTarget, sampleFailedRow]).get ⟨1, by decide⟩).status_id
      = ([sampleNonceTarget, sampleFailedRow].get ⟨1, by decide⟩).status_id
      := by
  have h := update_transfer_nonce_spec [sampleNonceTarget, sampleFailedRow]
    1 1 0 0 (by decide) (by decide)
  have hj := h.2.2.2.2.2 1 (by decide) (by decide) (by decide) (by decide)
  exact ⟨by decide, h.2.1 (by decide), h.2.2.1 (by decide), hj.1, hj.2⟩

/-! ## C5 -/

/-- A concrete signature-table state that already stores the signature
row of transfer 10 by validator node 2. -/
def sampleSignatureDb : SignatureDb :=
  { forwarder_contracts := [⟨1, 2, "0xf1"⟩]
    validator_nodes := [⟨2, 1, "0xn1"⟩]
    validator_node_signatures := [⟨10, 2, "sigX"⟩]
    next_id := 3 }

/-- Counterexample to C5: calling `create_validator_node_signature` for
a `(transfer_id, validator_node)` pair whose signature row already
exists raises an `IntegrityError` instead of succeeding. -/
theorem create_validator_node_signature_counterexample :
    read_validator_node_signature 10 2 "0xf1" "0xn1" sampleSignatureDb
      = some "sigX" ∧
    create_validator_node_signature 10 2 "0xf1" "0xn1" "sigY"
        sampleSignatureDb
      = Except.error DatabaseError.integrityError := by
  exact ⟨rfl, rfl⟩

/-- C5 as amended: `create_validator_node_signature` raises on a
uniqueness violation of the signature insert; the "already present"
handling lives in its caller `__store_validator_node_signature`, which
reads the signature first and, when it is already stored, succeeds
without inserting and leaves the stored state (in particular the single
existing signature row for the pair) unchanged. -/
theorem store_validator_node_signature_idempotent (db : SignatureDb)
    (internal_transfer_id destination_blockchain : Nat)
    (destination_forwarder_address validator_node_address : String)
    (signature stored_signature : String)
    (forwarder_contract_id validator_node_id : Nat)
    (hread : read_validator_node_signature internal_transfer_id
        destination_blockchain destination_forwarder_address
        validator_node_address db = some stored_signature)
    (hforwarder : read_forwarder_contract_id db destination_blockchain
        destination_forwarder_address = some forwarder_contract_id)
    (hnode : read_validator_node_id db forwarder_contract_id
        validator_node_address = some validator_node_id)
    (hdup : (db.validator_node_signatures.any fun s =>
        (s.transfer_id = internal_transfer_id ∧
          s.validator_node_id = validator_node_id) ∨
          s.signature = signature) = true) :
    store_validator_node_signature internal_transfer_id
        destination_blockchain destination_forwarder_address
        validator_node_address signature db
      = Except.ok db ∧
    create_validator_node_signature internal_transfer_id
        destination_blockchain destination_forwarder_address
        validator_node_address signature db
      = Except.error DatabaseError.integrityError := by
  constructor
  · simp [store_validator_node_signature, hread]
  · simp [create_validator_node_signature, ensure_forwarder_contract,
      ensure_validator_node, hforwarder, hnode, hdup]
    have hdup2 : ∃ x ∈ db.validator_node_signatures,
        x.transfer_id = internal_transfer_id ∧
          x.validator_node_id = validator_node_id ∨
          x.signature = signature := by
      simpa using hdup
    obtain ⟨x, hx, hor⟩ := hdup2
    exact ⟨x, hx, fun himp =>
      hor.elim (fun hab => absurd hab.2 (himp hab.1)) id⟩

/-- Witness for the amended C5 on the concrete state. -/
theorem store_validator_node_signature_idempotent_witness :
    store_validator_node_signature 10 2 "0xf1" "0xn1" "sigY"
        sampleSignatureDb
      = Except.ok sampleSignatureDb ∧
    create_validator_node_signature 10 2 "0xf1" "0xn1" "sigY"
        sampleSignatureDb
      = Except.error DatabaseError.integrityError :=
  store_validator_node_signature_idempotent sampleSignatureDb 10 2
    "0xf1" "0xn1" "sigY" "sigX" 1 2 (by decide) (by decide) (by decide)
    (by decide)

/-! ## C6 -/

/-- A concrete detector environment whose nonce draw repeats the
validator nonce already stored for another transfer on the same
destination blockchain. -/
def sampleCollisionEnv : DetectorEnv :=
  { confirmations := 0
    from_block := 0
    token_contract_id := fun _ _ => 0
    hub_contract_id := fun _ _ => 0
    draw_validator_nonce := fun _ => 77
    task_id := fun _ => "t0"
    now := 0 }

/-- A newly observed `TransferFromSucceeded` event not yet stored. -/
def sampleEvent : CrossChainTransfer :=
  { source_blockchain := 0
    destination_blockchain := 1
    source_hub_address := "0x11"
    source_transfer_id := 9
    source_transaction_id := "0xnew"
    source_block_number := 50
    source_block_hash := "0xbh"
    sender_address := "0xs1"
    recipient_address := "0xr1"
    source_token_address := "0xt1"
    destination_token_address := "0xt2"
    amount := 10
    fee := 0
    service_node_address := "0xsv"}

/-- C6: evaluation of the embedded code at the failing input — the
stored transfer on destination blockchain 1 already uses validator
nonce 77 and the newly detected event draws 77.  The claim (and the
spec, and `create_transfer`'s own docstring) say `create_transfer`
raises `ValidatorNonceNotUniqueError` here and the detector redraws a
fresh nonce; in fact the `unique_validator_nonce` constraint — over
`(destination_forwarder_contract_id, validator_nonce)` with the
inserted forwarder id NULL — cannot fire, so `create_transfer`
succeeds, no redraw happens, and the cycle completes with two transfers
holding validator nonce 77 on destination blockchain 1. -/
theorem detect_new_transfers_no_nonce_redraw :
    create_transfer sampleCollisionEnv [sampleRow] 2
        (creation_request_of_event
          (sampleCollisionEnv.draw_validator_nonce 0) sampleEvent)
      = Except.ok (2, [sampleRow,
          new_transfer_row sampleCollisionEnv 2
            (creation_request_of_event
              (sampleCollisionEnv.draw_validator_nonce 0) sampleEvent)]) ∧
    ∃ st', detect_new_transfers sampleCollisionEnv
        { last_block_number := 10, transfers := [sampleRow],
          next_transfer_id := 2 }
        { outgoing_transfers := [sampleEvent], to_block_number := 12 }
        = Except.ok st' ∧
      st'.last_block_number = 12 ∧
      (st'.transfers.filter fun t =>
          t.destination_blockchain_id = 1 ∧
            t.validator_nonce = 77).length = 2 := by
  refine ⟨rfl, ⟨_, rfl, rfl, ?_⟩⟩
  decide

/-! ## C4 -/

/-- The Ethereum client's response always carries the latest block
number as the `to` block. -/
theorem read_outgoing_to_block
    (get_logs : Int → Int → List CrossChainTransfer)
    (latest_block_number from_block_number : Int) :
    (read_outgoing_transfers_from_block get_logs latest_block_number
        from_block_number).to_block_number = latest_block_number := by
  unfold read_outgoing_transfers_from_block
  split <;> rfl

/-- The Ethereum client returns no transfers when the starting block is
beyond the latest block. -/
theorem read_outgoing_empty
    (get_logs : Int → Int → List CrossChainTransfer)
    (latest_block_number from_block_number : Int)
    (h : from_block_number > latest_block_number) :
    (read_outgoing_transfers_from_block get_logs latest_block_number
        from_block_number).outgoing_transfers = [] := by
  unfold read_outgoing_transfers_from_block
  rw [if_pos h]

/-- A stored transfer row originating from the given event's source
blockchain and transaction. -/
def has_transfer_row (transfers : List Transfer)
    (found_transfer : CrossChainTransfer) : Prop :=
  ∃ row ∈ transfers,
    row.source_blockchain_id = found_transfer.source_blockchain ∧
      row.source_transaction_id = found_transfer.source_transaction_id

/-- Inversion of a successful `Except` bind. -/
theorem except_bind_ok_inv {ε α β : Type} (x : Except ε α)
    (f : α → Except ε β) (b : β) (h : (x >>= f) = Except.ok b) :
    ∃ a, x = Except.ok a ∧ f a = Except.ok b := by
  cases x with
  | error e => simp [Bind.bind, Except.bind] at h
  | ok a => exact ⟨a, rfl, by simpa [Bind.bind, Except.bind] using h⟩

/-- The task-ID update applied to the transfers table after a creation
preserves every row's source blockchain and source transaction ID. -/
theorem task_update_preserves_source (internal_transfer_id : Nat)
    (task_id : String) (now : Nat) (t : Transfer) :
    ((if t.id = internal_transfer_id then
        update_transfer_task_id_row task_id now t
      else t).source_blockchain_id = t.source_blockchain_id) ∧
    ((if t.id = internal_transfer_id then
        update_transfer_task_id_row task_id now t
      else t).source_transaction_id = t.source_transaction_id) := by
  by_cases hid : t.id = internal_transfer_id <;>
    simp [hid, update_transfer_task_id_row]

/-- `create_transfer` always succeeds: the inserted row's
`destination_forwarder_contract_id` is NULL, so the NULLS-DISTINCT
`unique_validator_nonce` constraint cannot be violated by this
INSERT. -/
theorem create_transfer_ok (env : DetectorEnv) (transfers : List Transfer)
    (next_transfer_id : Nat) (request : TransferCreationRequest) :
    create_transfer env transfers next_transfer_id request
      = Except.ok (next_transfer_id,
          transfers ++ [new_transfer_row env next_transfer_id request]) := by
  have hnone : ∀ a : Option Nat, sqlEqOptNat a none = false := by
    intro a
    cases a <;> rfl
  have hfwd : (new_transfer_row env next_transfer_id
      request).destination_forwarder_contract_id = none := rfl
  simp [create_transfer, hfwd, hnone]

/-- A loop iteration for an already stored event changes nothing. -/
theorem process_found_transfer_known (env : DetectorEnv)
    (acc : List Transfer × Nat × Nat)
    (found_transfer : CrossChainTransfer) (tid : Nat)
    (hread : read_transfer_id found_transfer.source_blockchain
      found_transfer.source_transaction_id acc.1 = some tid) :
    process_found_transfer env acc found_transfer = Except.ok acc := by
  unfold process_found_transfer
  rw [hread]

/-- A loop iteration for a new event creates its row (with the task ID
stored on it) and advances the fresh key and the creation counter. -/
theorem process_found_transfer_new (env : DetectorEnv)
    (acc : List Transfer × Nat × Nat)
    (found_transfer : CrossChainTransfer)
    (hread : read_transfer_id found_transfer.source_blockchain
      found_transfer.source_transaction_id acc.1 = none) :
    process_found_transfer env acc found_transfer
      = Except.ok
        ((acc.1 ++ [new_transfer_row env acc.2.1
            (creation_request_of_event (env.draw_validator_nonce acc.2.2)
              found_transfer)]).map
          (fun t => if t.id = acc.2.1 then
            update_transfer_task_id_row (env.task_id acc.2.2) env.now t
          else t),
          acc.2.1 + 1, acc.2.2 + 1) := by
  simp [process_found_transfer, hread, create_transfer_ok, Bind.bind,
    Except.bind, pure, Except.pure]

/-- Every loop iteration succeeds. -/
theorem process_found_transfer_ok (env : DetectorEnv)
    (acc : List Transfer × Nat × Nat)
    (found_transfer : CrossChainTransfer) :
    ∃ acc', process_found_transfer env acc found_transfer
      = Except.ok acc' := by
  cases hread : read_transfer_id found_transfer.source_blockchain
      found_transfer.source_transaction_id acc.1 with
  | some tid =>
      exact ⟨acc, process_found_transfer_known env acc found_transfer tid
        hread⟩
  | none =>
      exact ⟨_, process_found_transfer_new env acc found_transfer hread⟩

/-- The whole detection loop succeeds. -/
theorem foldlM_process_found_transfer_ok (env : DetectorEnv) :
    ∀ (found_transfers : List CrossChainTransfer)
      (acc : List Transfer × Nat × Nat),
      ∃ acc', found_transfers.foldlM (process_found_transfer env) acc
        = Except.ok acc' := by
  intro found_transfers
  induction found_transfers with
  | nil => intro acc; exact ⟨acc, rfl⟩
  | cons found_transfer rest ih =>
      intro acc
      obtain ⟨acc1, h1⟩ := process_found_transfer_ok env acc found_transfer
      obtain ⟨acc', h2⟩ := ih acc1
      refine ⟨acc', ?_⟩
      rw [List.foldlM_cons, h1]
      simpa [Bind.bind, Except.bind] using h2

/-- A successful loop iteration leaves a row for its own event. -/
theorem process_found_transfer_creates (env : DetectorEnv)
    (acc acc' : List Transfer × Nat × Nat)
    (found_transfer : CrossChainTransfer)
    (h : process_found_transfer env acc found_transfer = Except.ok acc') :
    has_transfer_row acc'.1 found_transfer := by
  cases hread : read_transfer_id found_transfer.source_blockchain
      found_transfer.source_transaction_id acc.1 with
  | some tid =>
      rw [process_found_transfer_known env acc found_transfer tid hread]
        at h
      obtain ⟨t, hfind⟩ : ∃ t, acc.1.find? (fun t =>
          t.source_blockchain_id = found_transfer.source_blockchain ∧
            t.source_transaction_id
              = found_transfer.source_transaction_id) = some t := by
        unfold read_transfer_id at hread
        cases hf : acc.1.find? (fun t =>
            t.source_blockchain_id = found_transfer.source_blockchain ∧
              t.source_transaction_id
                = found_transfer.source_transaction_id) with
        | none => rw [hf] at hread; simp at hread
        | some t => exact ⟨t, rfl⟩
      have hmem := List.mem_of_find?_eq_some hfind
      have hpred := List.find?_some hfind
      have hacc : acc' = acc := by simpa using h.symm
      subst hacc
      refine ⟨t, hmem, ?_⟩
      simpa using hpred
  | none =>
      rw [process_found_transfer_new env acc found_transfer hread] at h
      have hacc' : acc' = ((acc.1 ++ [new_transfer_row env acc.2.1
          (creation_request_of_event (env.draw_validator_nonce acc.2.2)
            found_transfer)]).map
          (fun t => if t.id = acc.2.1 then
            update_transfer_task_id_row (env.task_id acc.2.2) env.now t
          else t),
          acc.2.1 + 1, acc.2.2 + 1) := by
        injection h.symm
      rw [hacc']
      refine ⟨_, List.mem_map_of_mem _ (List.mem_append_right _
        (List.mem_singleton.mpr rfl)), ?_⟩
      constructor
      · rw [(task_update_preserves_source _ _ _ _).1]
        rfl
      · rw [(task_update_preserves_source _ _ _ _).2]
        rfl

/-- A successful loop iteration preserves existing event rows. -/
theorem process_found_transfer_preserves (env : DetectorEnv)
    (acc acc' : List Transfer × Nat × Nat)
    (found_transfer other : CrossChainTransfer)
    (h : process_found_transfer env acc found_transfer = Except.ok acc')
    (hhas : has_transfer_row acc.1 other) :
    has_transfer_row acc'.1 other := by
  obtain ⟨row, hmem, h1, h2⟩ := hhas
  cases hread : read_transfer_id found_transfer.source_blockchain
      found_transfer.source_transaction_id acc.1 with
  | some tid =>
      rw [process_found_transfer_known env acc found_transfer tid hread]
        at h
      have hacc : acc' = acc := by simpa using h.symm
      subst hacc
      exact ⟨row, hmem, h1, h2⟩
  | none =>
      rw [process_found_transfer_new env acc found_transfer hread] at h
      have hacc' : acc' = ((acc.1 ++ [new_transfer_row env acc.2.1
          (creation_request_of_event (env.draw_validator_nonce acc.2.2)
            found_transfer)]).map
          (fun t => if t.id = acc.2.1 then
            update_transfer_task_id_row (env.task_id acc.2.2) env.now t
          else t),
          acc.2.1 + 1, acc.2.2 + 1) := by
        injection h.symm
      rw [hacc']
      refine ⟨_, List.mem_map_of_mem _
        (List.mem_append_left _ hmem), ?_⟩
      constructor
      · rw [(task_update_preserves_source _ _ _ _).1]
        exact h1
      · rw [(task_update_preserves_source _ _ _ _).2]
        exact h2


/-- A successful detection loop leaves a row for every processed
event. -/
theorem foldlM_process_found_transfer (env : DetectorEnv) :
    ∀ (found_transfers : List CrossChainTransfer)
      (acc acc' : List Transfer × Nat × Nat),
      found_transfers.foldlM (process_found_transfer env) acc
        = Except.ok acc' →
      (∀ other, has_transfer_row acc.1 other →
        has_transfer_row acc'.1 other) ∧
      ∀ found_transfer ∈ found_transfers,
        has_transfer_row acc'.1 found_transfer := by
  intro found_transfers
  induction found_transfers with
  | nil =>
      intro acc acc' h
      have hacc : acc' = acc := by
        simpa [List.foldlM, pure, Except.pure] using h.symm
      subst hacc
      exact ⟨fun other hh => hh, by simp⟩
  | cons found_transfer rest ih =>
      intro acc acc' h
      rw [List.foldlM_cons] at h
      obtain ⟨acc1, hstep, hfold⟩ := except_bind_ok_inv _ _ _ h
      obtain ⟨hpres, hall⟩ := ih acc1 acc' hfold
      refine ⟨?_, ?_⟩
      · intro other hh
        exact hpres other
          (process_found_transfer_preserves env acc acc1 found_transfer
            other hstep hh)
      · intro e he
        rcases List.mem_cons.mp he with heq | hrest2
        · subst heq
          exact hpres e
            (process_found_transfer_creates env acc acc1 e hstep)
        · exact hall e hrest2

/-- A concrete detector environment with five confirmations. -/
def sampleWindowEnv : DetectorEnv :=
  { confirmations := 5
    from_block := 0
    token_contract_id := fun _ _ => 0
    hub_contract_id := fun _ _ => 0
    draw_validator_nonce := fun _ => 0
    task_id := fun _ => "t1"
    now := 0 }

/-- Counterexample to C4: with a stored last block number of 10, five
confirmations and a client whose latest block is 7, the starting block
is 5 ≤ 7 = `to`, yet `detect_new_transfers` raises (the final
`update_blockchain_last_block_number` refuses to move the stored last
block number backwards), refuting "raises an error if and only if
from > to and from − 1 ≠ to". -/
theorem detect_new_transfers_window_counterexample :
    max ((10 : Int) - sampleWindowEnv.confirmations)
        sampleWindowEnv.from_block
      ≤ (read_outgoing_transfers_from_block (fun _ _ => []) 7
          (max ((10 : Int) - sampleWindowEnv.confirmations)
            sampleWindowEnv.from_block)).to_block_number ∧
    detect_new_transfers sampleWindowEnv
        { last_block_number := 10, transfers := [], next_transfer_id := 1 }
        (read_outgoing_transfers_from_block (fun _ _ => []) 7
          (max ((10 : Int) - sampleWindowEnv.confirmations)
            sampleWindowEnv.from_block))
      = Except.error DetectError.wrappedInternalError := by
  exact ⟨by decide, rfl⟩

/-- C4 as amended: with `from = max(last − confirmations, from_block)`
and the client response of `read_outgoing_transfers_from_block(from)`:
the operation raises an error iff `from > to` and `from − 1 ≠ to` (the
backwards-window error) or `from ≤ to` and `to` is strictly below the
stored last block number (the final
`update_blockchain_last_block_number` rejects the backwards move and
the error is wrapped); `from − 1 = to` completes without error, without
creating any transfer and without updating the last block number; and
when `from ≤ to` and the stored last block number is at most `to`,
every returned event is processed (each ends up stored) and the last
block number is updated to `to`. -/
theorem detect_new_transfers_window_spec (env : DetectorEnv)
    (st : DetectorState)
    (get_logs : Int → Int → List CrossChainTransfer)
    (latest_block_number : Int) :
    let from_block_number :=
      max (st.last_block_number - env.confirmations) env.from_block
    let response := read_outgoing_transfers_from_block get_logs
      latest_block_number from_block_number
    (from_block_number > response.to_block_number ∧
        from_block_number - 1 ≠ response.to_block_number →
      detect_new_transfers env st response
        = Except.error DetectError.blockNumberWentBackwards) ∧
    (from_block_number - 1 = response.to_block_number →
      detect_new_transfers env st response = Except.ok st) ∧
    (from_block_number ≤ response.to_block_number →
      st.last_block_number ≤ response.to_block_number →
      ∃ transfers next_transfer_id,
        detect_new_transfers env st response
          = Except.ok
            { last_block_number := response.to_block_number,
              transfers := transfers,
              next_transfer_id := next_transfer_id } ∧
        ∀ found_transfer ∈ response.outgoing_transfers,
          has_transfer_row transfers found_transfer) ∧
    (from_block_number ≤ response.to_block_number →
      response.to_block_number < st.last_block_number →
      detect_new_transfers env st response
        = Except.error DetectError.wrappedInternalError) := by
  intro from_block_number response
  have hto : response.to_block_number = latest_block_number :=
    read_outgoing_to_block get_logs latest_block_number from_block_number
  refine ⟨?_, ?_, ?_, ?_⟩
  · rintro ⟨hgt, hne⟩
    have hempty : response.outgoing_transfers = [] :=
      read_outgoing_empty get_logs latest_block_number from_block_number
        (hto ▸ hgt)
    simp only [detect_new_transfers, hempty]
    rw [if_pos hgt]
    simp [hne]
  · intro heq
    have hgt : from_block_number > response.to_block_number := by omega
    have hempty : response.outgoing_transfers = [] :=
      read_outgoing_empty get_logs latest_block_number from_block_number
        (hto ▸ hgt)
    simp only [detect_new_transfers, hempty]
    rw [if_pos hgt]
    simp [heq]
  · intro hle hlast
    obtain ⟨acc', hfold⟩ := foldlM_process_found_transfer_ok env
      response.outgoing_transfers (st.transfers, st.next_transfer_id, 0)
    obtain ⟨transfers, next_transfer_id, created_count⟩ := acc'
    have hupd : update_blockchain_last_block_number st.last_block_number
        response.to_block_number = Except.ok response.to_block_number := by
      unfold update_blockchain_last_block_number
      rw [if_neg (not_lt_of_le hlast)]
      by_cases heq2 : st.last_block_number = response.to_block_number
      · simp [heq2]
      · simp [heq2]
    refine ⟨transfers, next_transfer_id, ?_, ?_⟩
    · simp only [detect_new_transfers]
      rw [if_neg (not_lt.mpr hle), hfold, hupd]
    · exact (foldlM_process_found_transfer env
        response.outgoing_transfers _ _ hfold).2
  · intro hle hlt
    obtain ⟨acc', hfold⟩ := foldlM_process_found_transfer_ok env
      response.outgoing_transfers (st.transfers, st.next_transfer_id, 0)
    obtain ⟨transfers, next_transfer_id, created_count⟩ := acc'
    have hupd : update_blockchain_last_block_number st.last_block_number
        response.to_block_number
        = Except.error
          "stored last block number is greater than given block number"
        := by
      unfold update_blockchain_last_block_number
      rw [if_pos hlt]
    simp only [detect_new_transfers]
    rw [if_neg (not_lt.mpr hle), hfold, hupd]

/-- Witness for the amended C4: the zero-size window completes without
effect, and a window that moved below the stored last block number
raises the wrapped error. -/
theorem detect_new_transfers_window_spec_witness :
    (detect_new_transfers sampleWindowEnv
        { last_block_number := 10, transfers := [], next_transfer_id := 1 }
        (read_outgoing_transfers_from_block (fun _ _ => []) 4
          (max ((10 : Int) - sampleWindowEnv.confirmations)
            sampleWindowEnv.from_block))
      = Except.ok
        { last_block_number := 10, transfers := [],
          next_transfer_id := 1 }) ∧
    detect_new_transfers sampleWindowEnv
        { last_block_number := 10, transfers := [], next_transfer_id := 1 }
        (read_outgoing_transfers_from_block (fun _ _ => []) 7
          (max ((10 : Int) - sampleWindowEnv.confirmations)
            sampleWindowEnv.from_block))
      = Except.error DetectError.wrappedInternalError :=
  ⟨(detect_new_transfers_window_spec sampleWindowEnv
      { last_block_number := 10, transfers := [], next_transfer_id := 1 }
      (fun _ _ => []) 4).2.1 (by decide),
    (detect_new_transfers_window_spec sampleWindowEnv
        { last_block_number := 10, transfers := [], next_transfer_id := 1 }
        (fun _ _ => []) 7).2.2.2 (by decide) (by decide)⟩

end PantosValidatorNode
